import Mathlib

/-!
# Flight controller of `crazyflie_controller/src/time_optimal_controller.cpp`

A shallow embedding of the class `Controller`: its mode field, the four PID
loops, the takeoff bookkeeping and the tick function `iteration`, followed by
theorems about them.

Conventions of the embedding.

* C++ `float`/`double` values are exact rationals (`ℚ`): comparisons and
  arithmetic are the ideal ones, rounding is not modelled. Division by zero,
  which yields an infinity or a NaN in the code, is not modelled either: the
  quotient `m_thrust / ki` of line 180 is meaningful only for nonzero `ki`, and
  the theorems that speak of it assume so.
* The command channel `m_pubNav` is the list of messages one call publishes,
  in publication order.
* The transform listener is an input of the tick (`TickInput`): the sensed
  origin of the vehicle in the world frame, the resolution of a world-frame
  pose into the body frame, and the yaw extracted from a quaternion.
* The goal and the velocity feedback are the fields `m_goal` and
  `m_twistData` of the controller, overwritten by `goalChanged` and
  `getTwistData` between ticks.
-/

namespace TimeOptimalController

/-- Three-component vector, `geometry_msgs::Vector3` / `geometry_msgs::Point`. -/
structure Vector3 where
  x : ℚ
  y : ℚ
  z : ℚ
  deriving DecidableEq, Repr

/-- Orientation quaternion, `geometry_msgs::Quaternion`. -/
structure Quaternion where
  x : ℚ
  y : ℚ
  z : ℚ
  w : ℚ
  deriving DecidableEq, Repr

/-- Position and orientation, `geometry_msgs::Pose`. -/
structure Pose where
  position : Vector3
  orientation : Quaternion
  deriving DecidableEq, Repr

/-- Velocity command, `geometry_msgs::Twist`. -/
structure Twist where
  linear : Vector3
  angular : Vector3
  deriving DecidableEq, Repr

/-- Default-constructed `geometry_msgs::Twist`: every field is zero. -/
def Twist.zero : Twist :=
  { linear := { x := 0, y := 0, z := 0 }, angular := { x := 0, y := 0, z := 0 } }

/-- Modes of the controller, `enum State` (lines 427-434). -/
inductive State where
  | Idle
  | Automatic
  | TakingOff
  | Landing
  | GoToZDesired
  deriving DecidableEq, Repr

/-- Modelled from the spec: the class `PID` of `pid.hpp`, which is included by
the controller but is not among the sources. Section 4.1 of the specification
gives its state (accumulated integral, previous error) and its configuration
(kp, kd, ki, output bounds, integral bounds). -/
structure PID where
  kp : ℚ
  kd : ℚ
  ki : ℚ
  minOutput : ℚ
  maxOutput : ℚ
  integratorMin : ℚ
  integratorMax : ℚ
  integral : ℚ
  previousError : ℚ
  deriving DecidableEq, Repr

/-- Modelled from the spec: closed-interval clamp used by the PID loop of
`pid.hpp` (section 4.1, "all clamps are closed intervals"). -/
def clamp (v lo hi : ℚ) : ℚ := max (min v hi) lo

/-- Modelled from the spec: `PID::reset` of `pid.hpp`, "zeroes integral and
previousError". -/
def PID.reset (p : PID) : PID :=
  { p with integral := 0, previousError := 0 }

/-- Modelled from the spec: `PID::setIntegral` of `pid.hpp`, "directly
overwrites the integral term". -/
def PID.setIntegral (p : PID) (value : ℚ) : PID :=
  { p with integral := value }

/-- Modelled from the spec: `PID::update` of `pid.hpp` with the explicit `dt`
that section 4.1 requires. error = setpoint - measurement; the integral
accumulates error * dt and is clamped; the derivative is 0 when dt <= 0; the
output is the clamped sum kp*error + kd*derivative + ki*integral. Returns the
updated loop and the output. -/
def PID.update (p : PID) (dt setpoint measurement : ℚ) : PID × ℚ :=
  let error := setpoint - measurement
  let integral := clamp (p.integral + error * dt) p.integratorMin p.integratorMax
  let derivative := if dt ≤ 0 then 0 else (error - p.previousError) / dt
  let raw := p.kp * error + p.kd * derivative + p.ki * integral
  ({ p with integral := integral, previousError := error },
   clamp raw p.minOutput p.maxOutput)

/-- The data members of `Controller` that `iteration`, `takeoff` and `land`
read or write (lines 437-455). -/
structure Controller where
  m_pidX : PID
  m_pidY : PID
  m_pidZ : PID
  m_pidYaw : PID
  m_state : State
  m_goal : Pose
  m_goal_temp : Pose
  m_twistData : Twist
  m_thrust : ℚ
  m_startZ : ℚ
  m_startX : ℚ
  m_startY : ℚ
  m_HoverRMSEX : ℚ
  m_HoverRMSEY : ℚ
  m_HoverRMSEZ : ℚ

/-- What the transform listener answers during one tick, with the elapsed
time of the timer event: `origin` is `lookupTransform(...).getOrigin()`,
`transformPose` is `m_listener.transformPose(m_frame, ., .)` and `yawOf` is the
yaw of `tf::Matrix3x3(q).getRPY`. -/
structure TickInput where
  dt : ℚ
  origin : Vector3
  transformPose : Pose → Pose
  yawOf : Quaternion → ℚ

/-- The subscriber callback `goalChanged` (lines 91-95). -/
def goalChanged (c : Controller) (msg : Pose) : Controller :=
  { c with m_goal := msg }

/-- The subscriber callback `getTwistData` (lines 97-101). -/
def getTwistData (c : Controller) (msg : Twist) : Controller :=
  { c with m_twistData := msg }

/-- The service `takeoff` (lines 103-123): `origin` is the vehicle origin the
listener reports at the call. Returns the new controller and the reply. -/
def takeoff (c : Controller) (origin : Vector3) : Controller × Bool :=
  ({ c with m_state := State.TakingOff,
            m_startZ := origin.z, m_startX := origin.x, m_startY := origin.y },
   true)

/-- The service `land` (lines 125-133). -/
def land (c : Controller) : Controller × Bool :=
  ({ c with m_state := State.Landing }, true)

/-- The method `pidReset` (lines 143-149). -/
def pidReset (c : Controller) : Controller :=
  { c with m_pidX := c.m_pidX.reset, m_pidY := c.m_pidY.reset,
           m_pidZ := c.m_pidZ.reset, m_pidYaw := c.m_pidYaw.reset }

/-- Condition of line 177 under which `TakingOff` is left. -/
def takeoffExit (c : Controller) (i : TickInput) : Prop :=
  i.origin.z > c.m_startZ + 1/20 ∨ c.m_thrust > 50000

instance (c : Controller) (i : TickInput) : Decidable (takeoffExit c i) := by
  unfold takeoffExit; infer_instance

/-- Condition of line 278 under which `Landing` is left. -/
def landingExit (c : Controller) (i : TickInput) : Prop :=
  i.origin.z ≤ c.m_startZ + 1/20

instance (c : Controller) (i : TickInput) : Decidable (landingExit c i) := by
  unfold landingExit; infer_instance

/-- The four closed-loop assignments shared by `GoToZDesired`, `Landing` and
the else-branch of `Automatic` (lines 226-230, 301-305, 403-406): each loop is
updated once against the body-frame target, X first, then Y, Z and Yaw. -/
def pidCommand (c : Controller) (dt : ℚ) (targetDrone : Pose) (yaw : ℚ) :
    Controller × Twist :=
  let rx := c.m_pidX.update dt 0 targetDrone.position.x
  let ry := c.m_pidY.update dt 0 targetDrone.position.y
  let rz := c.m_pidZ.update dt 0 targetDrone.position.z
  let ryaw := c.m_pidYaw.update dt 0 yaw
  ({ c with m_pidX := rx.1, m_pidY := ry.1, m_pidZ := rz.1, m_pidYaw := ryaw.1 },
   { linear := { x := rx.2, y := ry.2, z := rz.2 },
     angular := { x := 0, y := 0, z := ryaw.2 } })

/-- Augmented error signal of line 334. -/
def s_x (c : Controller) (targetDrone : Pose) : ℚ :=
  targetDrone.position.x * 10
    + 1910 * c.m_twistData.linear.x * |c.m_twistData.linear.x|

/-- Augmented error signal of line 335. -/
def s_y (c : Controller) (targetDrone : Pose) : ℚ :=
  targetDrone.position.y * 10
    + 1910 * c.m_twistData.linear.y * |c.m_twistData.linear.y|

/-- Condition of line 339 that selects the sector branch of `Automatic`. -/
def errorPresent (targetDrone : Pose) : Prop :=
  targetDrone.position.x > 1/2 ∨ targetDrone.position.y > 1/2

instance (targetDrone : Pose) : Decidable (errorPresent targetDrone) := by
  unfold errorPresent; infer_instance

/-- Lateral assignment of lines 344-377 applied to a default message: the
pair written to (`msg.linear.x`, `msg.linear.y`). When the outer test holds and
no sector matches, nothing is assigned and both keep their default 0. -/
def lateral (sx sy : ℚ) : ℚ × ℚ :=
  if |sx| > 1/5 ∨ |sy| > 1/5 then
    if sx > 1/5 ∧ sy > 1/5 then (-10, -10)
    else if sx < -(1/5) ∧ sy > 1/5 then (10, -10)
    else if sx < -(1/5) ∧ sy < -(1/5) then (10, 10)
    else if sx > 1/5 ∧ sy < -(1/5) then (-10, 10)
    else (0, 0)
  else (0, 0)

/-- The tick function `iteration` (lines 151-423). Returns the controller
after the tick and the messages published during it, in order. -/
def iteration (c : Controller) (i : TickInput) : Controller × List Twist :=
  match c.m_state with
  | State.TakingOff =>
    if takeoffExit c i then
      let c1 : Controller := pidReset c
      let c2 : Controller := { c1 with m_pidZ := c1.m_pidZ.setIntegral (c1.m_thrust / c1.m_pidZ.ki) }
      let c3 : Controller := { c2 with m_goal_temp := c2.m_goal }
      let c4 : Controller := { c3 with m_goal_temp :=
        { c3.m_goal_temp with position :=
            { c3.m_goal_temp.position with x := c3.m_startX, y := c3.m_startY } } }
      ({ c4 with m_state := State.GoToZDesired, m_thrust := 0 }, [])
    else
      let c1 : Controller := { c with m_thrust := c.m_thrust + 14500 * i.dt }
      let msg : Twist := { Twist.zero with linear := { Twist.zero.linear with z := c1.m_thrust } }
      (c1, [msg])
  | State.GoToZDesired =>
    let targetDrone := i.transformPose c.m_goal_temp
    let yaw := i.yawOf targetDrone.orientation
    let r := pidCommand c i.dt targetDrone yaw
    let c1 : Controller := { r.1 with
      m_HoverRMSEX := targetDrone.position.x * targetDrone.position.x,
      m_HoverRMSEY := targetDrone.position.y * targetDrone.position.y,
      m_HoverRMSEZ := targetDrone.position.z * targetDrone.position.z }
    let c2 : Controller :=
      if c1.m_HoverRMSEX < 1/20 ∧ c1.m_HoverRMSEY < 1/20 ∧ c1.m_HoverRMSEZ < 1/20 then
        { c1 with m_state := State.Automatic }
      else c1
    (c2, [r.2])
  | State.Landing =>
    let c1 : Controller := { c with m_goal :=
      { c.m_goal with position := { c.m_goal.position with z := c.m_startZ + 1/20 } } }
    let first := if landingExit c1 i then [Twist.zero] else []
    let c2 : Controller := if landingExit c1 i then { c1 with m_state := State.Idle } else c1
    let targetDrone := i.transformPose c2.m_goal
    let yaw := i.yawOf targetDrone.orientation
    let r := pidCommand c2 i.dt targetDrone yaw
    (r.1, first ++ [r.2])
  | State.Automatic =>
    let targetDrone := i.transformPose c.m_goal
    let yaw := i.yawOf targetDrone.orientation
    let sx := s_x c targetDrone
    let sy := s_y c targetDrone
    if errorPresent targetDrone then
      let xy := lateral sx sy
      let rz := c.m_pidZ.update i.dt 0 targetDrone.position.z
      let ryaw := c.m_pidYaw.update i.dt 0 yaw
      ({ c with m_pidZ := rz.1, m_pidYaw := ryaw.1 },
       [{ linear := { x := xy.1, y := xy.2, z := rz.2 },
          angular := { x := 0, y := 0, z := ryaw.2 } }])
    else
      let r := pidCommand c i.dt targetDrone yaw
      (r.1, [r.2])
  | State.Idle => (c, [Twist.zero])

/-- A PID loop with unit proportional gain and wide bounds, for examples. -/
def pid0 : PID :=
  { kp := 1, kd := 0, ki := 1, minOutput := -100, maxOutput := 100,
    integratorMin := -100, integratorMax := 100, integral := 0, previousError := 0 }

/-- The pose at the origin with zero orientation components, for examples. -/
def pose0 : Pose :=
  { position := { x := 0, y := 0, z := 0 }, orientation := { x := 0, y := 0, z := 0, w := 1 } }

/-- The controller right after construction (lines 65-72): mode `Idle`,
thrust 0, start altitude 0, with the loops of `pid0`. -/
def controller0 : Controller :=
  { m_pidX := pid0, m_pidY := pid0, m_pidZ := pid0, m_pidYaw := pid0,
    m_state := State.Idle, m_goal := pose0, m_goal_temp := pose0,
    m_twistData := Twist.zero, m_thrust := 0, m_startZ := 0, m_startX := 0,
    m_startY := 0, m_HoverRMSEX := 0, m_HoverRMSEY := 0, m_HoverRMSEZ := 0 }

/-- A tick input whose vehicle sits at the world origin with identity
orientation, so that body frame and world frame coincide. -/
def input0 (dt z : ℚ) : TickInput :=
  { dt := dt, origin := { x := 0, y := 0, z := z },
    transformPose := fun p => p, yawOf := fun _ => 0 }

/-- A controller in `Landing` whose goal lies one metre ahead on the x axis. -/
def landingAhead : Controller :=
  { controller0 with
    m_state := State.Landing,
    m_goal := { pose0 with position := { x := 1, y := 0, z := 0 } } }

/-- A controller in `TakingOff` with the given accumulated thrust. -/
def takingOffWith (thrust : ℚ) : Controller :=
  { controller0 with m_state := State.TakingOff, m_thrust := thrust }

/-- A controller in `Automatic` whose goal sits at (ex, ey, 0) and whose
velocity feedback is (vx, vy, 0). -/
def automaticAt (ex ey vx vy : ℚ) : Controller :=
  { controller0 with
    m_state := State.Automatic,
    m_goal := { pose0 with position := { x := ex, y := ey, z := 0 } },
    m_twistData := { Twist.zero with linear := { x := vx, y := vy, z := 0 } } }

/-- A controller that flies in `Automatic` with a wound-up X loop (integral 5,
previous error 2). -/
def woundUp : Controller :=
  { controller0 with
    m_state := State.Automatic,
    m_pidX := { pid0 with integral := 5, previousError := 2 } }

/-- A controller in `GoToZDesired` whose snapshot goal sits at (ex, ey, ez). -/
def ascendingTo (ex ey ez : ℚ) : Controller :=
  { controller0 with
    m_state := State.GoToZDesired,
    m_goal_temp := { pose0 with position := { x := ex, y := ey, z := ez } } }

/-- A controller about to leave `TakingOff`: the trigger arrived at world
position (3, 4, 0), the thrust has passed 50000 and the live goal is (1, 2, 5). -/
def readyToAscend : Controller :=
  (takeoff
    { controller0 with
      m_thrust := 60000,
      m_goal := { pose0 with position := { x := 1, y := 2, z := 5 } } }
    { x := 3, y := 4, z := 0 }).1

/-- A controller in `Automatic` whose goal sits at (1, 0, 2): one metre ahead
and two metres up. -/
def belowGoal : Controller :=
  { controller0 with
    m_state := State.Automatic,
    m_goal := { pose0 with position := { x := 1, y := 0, z := 2 } } }

/-- What can happen to the controller between two returns to the event loop
of `run` (line 87): a timer tick, the takeoff service with the vehicle origin
the listener reports, or the landing service. -/
inductive Event where
  | tick (i : TickInput)
  | takeoff (origin : Vector3)
  | land

/-- The controller after one event. -/
def step (c : Controller) : Event → Controller
  | Event.tick i => (iteration c i).1
  | Event.takeoff origin => (takeoff c origin).1
  | Event.land => (land c).1

/-- The controller after a sequence of events, oldest first. -/
def runEvents (c : Controller) (es : List Event) : Controller :=
  es.foldl step c

/-- Every tick of the sequence has a non-negative elapsed time. -/
def nonnegTicks : List Event → Prop
  | [] => True
  | Event.tick i :: es => 0 ≤ i.dt ∧ nonnegTicks es
  | _ :: es => nonnegTicks es

/-- An aborted takeoff: trigger at the origin, one tick of one second on the
ground, landing trigger, one more tick on the ground. -/
def abortedTakeoff : List Event :=
  [Event.takeoff { x := 0, y := 0, z := 0 }, Event.tick (input0 1 0),
   Event.land, Event.tick (input0 1 0)]

/-- The live goal with its altitude pinned as line 275 does at the start of
every `Landing` tick. -/
def landingGoal (c : Controller) : Pose :=
  { c.m_goal with position := { c.m_goal.position with z := c.m_startZ + 1/20 } }

/-! ## Basic facts about the helpers -/

theorem pidCommand_state (c : Controller) (dt : ℚ) (t : Pose) (yaw : ℚ) :
    (pidCommand c dt t yaw).1.m_state = c.m_state := rfl

theorem pidCommand_goal (c : Controller) (dt : ℚ) (t : Pose) (yaw : ℚ) :
    (pidCommand c dt t yaw).1.m_goal = c.m_goal := rfl

/-! ## C1: commands per tick -/

/-- C1 (as stated, refuted): a tick does not always emit exactly one command.
The tick that leaves `TakingOff` (altitude 1 above start altitude 0) emits
none, and the tick that leaves `Landing` (altitude 0) emits two. -/
theorem c1_not_one_command_every_tick :
    (iteration (takingOffWith 0) (input0 1 1)).2 = [] ∧
    (iteration landingAhead (input0 1 0)).2.length = 2 := by
  constructor
  · norm_num [iteration, takingOffWith, controller0, input0, takeoffExit]
  · norm_num [iteration, landingAhead, controller0, input0, landingExit]

/-- C1 (amended): for every controller state and tick input, `iteration`
emits no command on the tick on which `TakingOff` exits, two commands on the
tick on which `Landing` exits, and exactly one command on every other tick, in
every mode. -/
theorem c1_commands_per_tick (c : Controller) (i : TickInput) :
    (iteration c i).2.length =
      if c.m_state = State.TakingOff ∧
          (i.origin.z > c.m_startZ + 1/20 ∨ c.m_thrust > 50000) then 0
      else if c.m_state = State.Landing ∧ i.origin.z ≤ c.m_startZ + 1/20 then 2
      else 1 := by
  unfold iteration
  cases hs : c.m_state <;> simp [takeoffExit, landingExit]
  · split <;> simp_all
  · split <;> simp_all
  · split <;> simp_all

/-! ## C2: the tick that leaves `Landing` -/

/-- C2 (as stated, refuted): on a tick that starts in `Landing` at altitude 0
(start altitude 0) with the goal one metre ahead, the mode becomes `Idle` but
the tick emits two commands, and the one emitted last carries the PID outputs
(x velocity -2), not zero. -/
theorem c2_landing_exit_last_command_not_zero :
    (iteration landingAhead (input0 1 0)).1.m_state = State.Idle ∧
    (iteration landingAhead (input0 1 0)).2 =
      [Twist.zero,
       { linear := { x := -2, y := 0, z := -(1/10) },
         angular := { x := 0, y := 0, z := 0 } }] := by
  constructor
  · norm_num [iteration, landingAhead, controller0, input0, landingExit, pidCommand]
  · norm_num [iteration, landingAhead, controller0, input0, landingExit, pidCommand,
      PID.update, clamp, pid0, pose0]

/-- C2 (amended): for every tick that starts in `Landing` with sensed altitude
at most start_z + 0.05, the mode after the tick is `Idle` and the tick emits
two commands: first the zero command, then a command whose x, y, z and yaw
components are the outputs of the four PID loops against the body-frame
resolution of the goal with its altitude pinned to start_z + 0.05. -/
theorem c2_landing_exit (c : Controller) (i : TickInput)
    (hs : c.m_state = State.Landing) (hz : i.origin.z ≤ c.m_startZ + 1/20) :
    (iteration c i).1.m_state = State.Idle ∧
    ∃ msg : Twist, (iteration c i).2 = [Twist.zero, msg] ∧
      msg.linear.x = (c.m_pidX.update i.dt 0 (i.transformPose (landingGoal c)).position.x).2 ∧
      msg.linear.y = (c.m_pidY.update i.dt 0 (i.transformPose (landingGoal c)).position.y).2 ∧
      msg.linear.z = (c.m_pidZ.update i.dt 0 (i.transformPose (landingGoal c)).position.z).2 ∧
      msg.angular.z =
        (c.m_pidYaw.update i.dt 0 (i.yawOf (i.transformPose (landingGoal c)).orientation)).2 := by
  have hz' : i.origin.z ≤ c.m_startZ + 20⁻¹ := by simpa using hz
  constructor
  · simp [iteration, hs, landingExit, pidCommand, hz']
  · refine ⟨(pidCommand { c with m_goal := landingGoal c } i.dt
        (i.transformPose (landingGoal c))
        (i.yawOf (i.transformPose (landingGoal c)).orientation)).2, ?_, rfl, rfl, rfl, rfl⟩
    simp [iteration, hs, landingExit, pidCommand, hz', landingGoal]

/-- C2 (amended), at a concrete input: start altitude 0, sensed altitude 0,
goal one metre ahead. -/
theorem c2_landing_exit_witness :
    (iteration landingAhead (input0 1 0)).1.m_state = State.Idle ∧
    ∃ msg : Twist, (iteration landingAhead (input0 1 0)).2 = [Twist.zero, msg] ∧
      msg.linear.x = -2 := by
  obtain ⟨h1, msg, h2, h3, -⟩ :=
    c2_landing_exit landingAhead (input0 1 0) rfl
      (by norm_num [landingAhead, controller0, input0])
  refine ⟨h1, msg, h2, ?_⟩
  rw [h3]
  norm_num [landingAhead, controller0, input0, landingGoal, PID.update, clamp, pid0, pose0]

/-! ## C3 and C4: leaving `TakingOff` -/

theorem iteration_takingOff_exit_state (c : Controller) (i : TickInput)
    (hs : c.m_state = State.TakingOff) (hx : takeoffExit c i) :
    (iteration c i).1.m_state = State.GoToZDesired := by
  simp [iteration, hs, hx]

theorem iteration_takingOff_stay_state (c : Controller) (i : TickInput)
    (hs : c.m_state = State.TakingOff) (hx : ¬ takeoffExit c i) :
    (iteration c i).1.m_state = State.TakingOff := by
  simp [iteration, hs, hx]

theorem iteration_takingOff_stay (c : Controller) (i : TickInput)
    (hs : c.m_state = State.TakingOff) (hx : ¬ takeoffExit c i) :
    iteration c i =
      ({ c with m_thrust := c.m_thrust + 14500 * i.dt },
       [{ linear := { x := 0, y := 0, z := c.m_thrust + 14500 * i.dt },
          angular := { x := 0, y := 0, z := 0 } }]) := by
  simp [iteration, hs, hx, Twist.zero]

theorem iteration_takingOff_exit (c : Controller) (i : TickInput)
    (hs : c.m_state = State.TakingOff) (hx : takeoffExit c i) :
    iteration c i =
      ({ c with
          m_pidX := c.m_pidX.reset, m_pidY := c.m_pidY.reset,
          m_pidZ := c.m_pidZ.reset.setIntegral (c.m_thrust / c.m_pidZ.ki),
          m_pidYaw := c.m_pidYaw.reset,
          m_goal_temp :=
            { position := { x := c.m_startX, y := c.m_startY, z := c.m_goal.position.z },
              orientation := c.m_goal.orientation },
          m_state := State.GoToZDesired, m_thrust := 0 },
       []) := by
  simp [iteration, hs, hx, pidReset, PID.reset, PID.setIntegral]

theorem iteration_takingOff_exit_pidZ (c : Controller) (i : TickInput)
    (hs : c.m_state = State.TakingOff) (hx : takeoffExit c i) :
    (iteration c i).1.m_pidZ = c.m_pidZ.reset.setIntegral (c.m_thrust / c.m_pidZ.ki) := by
  simp [iteration, hs, hx, pidReset, PID.reset, PID.setIntegral]

/-- C3: for every tick that starts in `TakingOff`, the mode after the tick is
`GoToZDesired` if and only if the sensed altitude exceeds start_z + 0.05 or
the accumulated thrust exceeds 50000, otherwise it stays `TakingOff`; and when
it transitions with ki_z nonzero, the Z integral after the tick is the thrust
accumulated before the tick divided by ki_z. -/
theorem c3_takingOff_exit (c : Controller) (i : TickInput)
    (hs : c.m_state = State.TakingOff) :
    ((iteration c i).1.m_state = State.GoToZDesired ↔
      (i.origin.z > c.m_startZ + 1/20 ∨ c.m_thrust > 50000)) ∧
    (¬ (i.origin.z > c.m_startZ + 1/20 ∨ c.m_thrust > 50000) →
      (iteration c i).1.m_state = State.TakingOff) ∧
    ((iteration c i).1.m_state = State.GoToZDesired → c.m_pidZ.ki ≠ 0 →
      (iteration c i).1.m_pidZ.integral = c.m_thrust / c.m_pidZ.ki) := by
  by_cases hx : takeoffExit c i
  · refine ⟨⟨fun _ => hx, fun _ => iteration_takingOff_exit_state c i hs hx⟩,
      fun hn => absurd hx hn, fun _ _ => ?_⟩
    rw [iteration_takingOff_exit_pidZ c i hs hx]
    rfl
  · have hstay := iteration_takingOff_stay_state c i hs hx
    refine ⟨⟨fun h => ?_, fun h => absurd h hx⟩, fun _ => hstay, fun h => ?_⟩
    · rw [hstay] at h
      cases h
    · rw [hstay] at h
      cases h

/-- C3 at a concrete input: accumulated thrust 60000 with unit ki_z leaves
`TakingOff` at altitude 0 and pre-loads the Z integral with 60000. -/
theorem c3_takingOff_exit_witness :
    (takingOffWith 60000).m_state = State.TakingOff ∧
    (iteration (takingOffWith 60000) (input0 1 0)).1.m_state = State.GoToZDesired ∧
    (iteration (takingOffWith 60000) (input0 1 0)).1.m_pidZ.integral = 60000 := by
  have h := c3_takingOff_exit (takingOffWith 60000) (input0 1 0) rfl
  have hgo : (iteration (takingOffWith 60000) (input0 1 0)).1.m_state = State.GoToZDesired :=
    h.1.2 (Or.inr (by norm_num [takingOffWith, controller0]))
  refine ⟨rfl, hgo, ?_⟩
  rw [h.2.2 hgo (by norm_num [takingOffWith, controller0, pid0])]
  norm_num [takingOffWith, controller0, pid0]

/-- C4 (as stated, refuted): with accumulated thrust exactly 50000 and the
vehicle at its start altitude, the tick stays in `TakingOff`. -/
theorem c4_thrust_50000_stays :
    (iteration (takingOffWith 50000) (input0 1 0)).1.m_state = State.TakingOff ∧
    (iteration (takingOffWith 50000) (input0 1 0)).1.m_state ≠ State.GoToZDesired := by
  have h : (iteration (takingOffWith 50000) (input0 1 0)).1.m_state = State.TakingOff := by
    norm_num [iteration, takingOffWith, controller0, input0, takeoffExit]
  exact ⟨h, by rw [h]; decide⟩

/-- C4 (amended): for every tick that starts in `TakingOff` with accumulated
thrust exactly 50000 and sensed altitude at most start_z + 0.05, the mode
after that tick is still `TakingOff` (the thrust test is strict) and the
accumulated thrust becomes 50000 + 14500*dt; when dt is positive the tick
after that one, whatever its input, moves to `GoToZDesired`. -/
theorem c4_thrust_exactly_50000 (c : Controller) (i : TickInput)
    (hs : c.m_state = State.TakingOff) (ht : c.m_thrust = 50000)
    (hz : i.origin.z ≤ c.m_startZ + 1/20) :
    (iteration c i).1.m_state = State.TakingOff ∧
    (iteration c i).1.m_thrust = 50000 + 14500 * i.dt ∧
    (0 < i.dt → ∀ j : TickInput,
      (iteration (iteration c i).1 j).1.m_state = State.GoToZDesired) := by
  have hx : ¬ takeoffExit c i := by
    unfold takeoffExit
    rw [ht]
    push_neg
    exact ⟨hz, le_refl _⟩
  have hstay := iteration_takingOff_stay_state c i hs hx
  have hthr : (iteration c i).1.m_thrust = 50000 + 14500 * i.dt := by
    simp [iteration, hs, hx, ht]
  refine ⟨hstay, hthr, fun hdt j => ?_⟩
  apply iteration_takingOff_exit_state _ _ hstay
  right
  rw [hthr]
  linarith

/-- C4 (amended), at a concrete input: thrust 50000, altitude 0, dt 1. -/
theorem c4_thrust_exactly_50000_witness :
    (iteration (takingOffWith 50000) (input0 1 0)).1.m_state = State.TakingOff ∧
    (iteration (takingOffWith 50000) (input0 1 0)).1.m_thrust = 64500 := by
  have h := c4_thrust_exactly_50000 (takingOffWith 50000) (input0 1 0) rfl rfl
    (by norm_num [takingOffWith, controller0, input0])
  refine ⟨h.1, ?_⟩
  rw [h.2.1]
  norm_num [input0]

/-! ## C5, C6, C7: the lateral command in `Automatic` -/

theorem iteration_automatic_sector (c : Controller) (i : TickInput)
    (hs : c.m_state = State.Automatic) (he : errorPresent (i.transformPose c.m_goal)) :
    (iteration c i).2 =
      [{ linear :=
           { x := (lateral (s_x c (i.transformPose c.m_goal)) (s_y c (i.transformPose c.m_goal))).1,
             y := (lateral (s_x c (i.transformPose c.m_goal)) (s_y c (i.transformPose c.m_goal))).2,
             z := (c.m_pidZ.update i.dt 0 (i.transformPose c.m_goal).position.z).2 },
         angular :=
           { x := 0, y := 0,
             z := (c.m_pidYaw.update i.dt 0 (i.yawOf (i.transformPose c.m_goal).orientation)).2 } }] := by
  simp [iteration, hs, he]

theorem iteration_automatic_pid (c : Controller) (i : TickInput)
    (hs : c.m_state = State.Automatic) (he : ¬ errorPresent (i.transformPose c.m_goal)) :
    iteration c i =
      ((pidCommand c i.dt (i.transformPose c.m_goal)
          (i.yawOf (i.transformPose c.m_goal).orientation)).1,
       [(pidCommand c i.dt (i.transformPose c.m_goal)
          (i.yawOf (i.transformPose c.m_goal).orientation)).2]) := by
  simp [iteration, hs, he]

theorem lateral_of_both (sx sy : ℚ) (hx : |sx| > 1/5) (hy : |sy| > 1/5) :
    (0 < sx → 0 < sy → lateral sx sy = (-10, -10)) ∧
    (sx < 0 → 0 < sy → lateral sx sy = (10, -10)) ∧
    (sx < 0 → sy < 0 → lateral sx sy = (10, 10)) ∧
    (0 < sx → sy < 0 → lateral sx sy = (-10, 10)) := by
  have hout : |sx| > 1/5 ∨ |sy| > 1/5 := Or.inl hx
  refine ⟨fun h1 h2 => ?_, fun h1 h2 => ?_, fun h1 h2 => ?_, fun h1 h2 => ?_⟩
  · rw [abs_of_pos h1] at hx
    rw [abs_of_pos h2] at hy
    unfold lateral
    rw [if_pos hout, if_pos ⟨hx, hy⟩]
  · rw [abs_of_neg h1] at hx
    rw [abs_of_pos h2] at hy
    have h3 : sx < -(1/5) := by linarith
    have h4 : ¬ (sx > 1/5 ∧ sy > 1/5) := fun h => by linarith [h.1]
    unfold lateral
    rw [if_pos hout, if_neg h4, if_pos ⟨h3, hy⟩]
  · rw [abs_of_neg h1] at hx
    rw [abs_of_neg h2] at hy
    have h3 : sx < -(1/5) := by linarith
    have h5 : sy < -(1/5) := by linarith
    have h4 : ¬ (sx > 1/5 ∧ sy > 1/5) := fun h => by linarith [h.1]
    have h6 : ¬ (sx < -(1/5) ∧ sy > 1/5) := fun h => by linarith [h.2]
    unfold lateral
    rw [if_pos hout, if_neg h4, if_neg h6, if_pos ⟨h3, h5⟩]
  · rw [abs_of_pos h1] at hx
    rw [abs_of_neg h2] at hy
    have h5 : sy < -(1/5) := by linarith
    have h4 : ¬ (sx > 1/5 ∧ sy > 1/5) := fun h => by linarith [h.2]
    have h6 : ¬ (sx < -(1/5) ∧ sy > 1/5) := fun h => by linarith [h.1]
    have h7 : ¬ (sx < -(1/5) ∧ sy < -(1/5)) := fun h => by linarith [h.1]
    unfold lateral
    rw [if_pos hout, if_neg h4, if_neg h6, if_neg h7, if_pos ⟨hx, h5⟩]

/-- C5 (evaluation at the failing input): in `Automatic` with body-frame goal
position (-1, 0, 0) and zero velocity feedback, the magnitude of the x error
exceeds 0.5, yet the test of line 339 fails and the lateral command comes from
the X and Y PID loops: the command has x velocity 2 and the X loop has been
updated (previous error 1), while the sector rule would have produced (0, 0). -/
theorem c5_negative_error_takes_pid_branch :
    |((input0 1 1).transformPose (automaticAt (-1) 0 0 0).m_goal).position.x| > 1/2 ∧
    ¬ errorPresent ((input0 1 1).transformPose (automaticAt (-1) 0 0 0).m_goal) ∧
    (iteration (automaticAt (-1) 0 0 0) (input0 1 1)).2 =
      [{ linear := { x := 2, y := 0, z := 0 }, angular := { x := 0, y := 0, z := 0 } }] ∧
    (iteration (automaticAt (-1) 0 0 0) (input0 1 1)).1.m_pidX.previousError = 1 ∧
    lateral (s_x (automaticAt (-1) 0 0 0) ((input0 1 1).transformPose (automaticAt (-1) 0 0 0).m_goal))
      (s_y (automaticAt (-1) 0 0 0) ((input0 1 1).transformPose (automaticAt (-1) 0 0 0).m_goal))
      = (0, 0) := by
  have he : ¬ errorPresent ((input0 1 1).transformPose (automaticAt (-1) 0 0 0).m_goal) := by
    norm_num [errorPresent, input0, automaticAt, pose0]
  refine ⟨?_, he, ?_, ?_, ?_⟩
  · norm_num [input0, automaticAt, pose0]
  · rw [iteration_automatic_pid _ _ rfl he]
    norm_num [pidCommand, input0, automaticAt, controller0, pose0, pid0, PID.update, clamp]
  · rw [iteration_automatic_pid _ _ rfl he]
    norm_num [pidCommand, input0, automaticAt, controller0, pose0, pid0, PID.update, clamp]
  · norm_num [lateral, s_x, s_y, input0, automaticAt, controller0, pose0, Twist.zero]

/-- C6: in the sector branch of `Automatic` (the test of line 339 holds), for
augmented error signals s_x, s_y that both exceed 0.2 in magnitude, the tick
emits one command whose lateral part is the diagonal fixed by the signs:
(+,+) gives (-10,-10), (-,+) gives (10,-10), (-,-) gives (10,10) and (+,-)
gives (-10,10). -/
theorem c6_quadrant_mapping (c : Controller) (i : TickInput)
    (hs : c.m_state = State.Automatic)
    (he : (i.transformPose c.m_goal).position.x > 1/2 ∨
          (i.transformPose c.m_goal).position.y > 1/2)
    (hx : |s_x c (i.transformPose c.m_goal)| > 1/5)
    (hy : |s_y c (i.transformPose c.m_goal)| > 1/5) :
    ∃ msg : Twist, (iteration c i).2 = [msg] ∧
      (0 < s_x c (i.transformPose c.m_goal) → 0 < s_y c (i.transformPose c.m_goal) →
        msg.linear.x = -10 ∧ msg.linear.y = -10) ∧
      (s_x c (i.transformPose c.m_goal) < 0 → 0 < s_y c (i.transformPose c.m_goal) →
        msg.linear.x = 10 ∧ msg.linear.y = -10) ∧
      (s_x c (i.transformPose c.m_goal) < 0 → s_y c (i.transformPose c.m_goal) < 0 →
        msg.linear.x = 10 ∧ msg.linear.y = 10) ∧
      (0 < s_x c (i.transformPose c.m_goal) → s_y c (i.transformPose c.m_goal) < 0 →
        msg.linear.x = -10 ∧ msg.linear.y = 10) := by
  obtain ⟨h1, h2, h3, h4⟩ := lateral_of_both _ _ hx hy
  refine ⟨_, iteration_automatic_sector c i hs he, ?_, ?_, ?_, ?_⟩
  · intro a b
    simp [h1 a b]
  · intro a b
    simp [h2 a b]
  · intro a b
    simp [h3 a b]
  · intro a b
    simp [h4 a b]

/-- C6 at concrete inputs: signals (0.3, 0.3) give the lateral command
(-10, -10) and signals (-0.3, -0.3) give (10, 10). -/
theorem c6_quadrant_mapping_witness :
    (s_x (automaticAt (3/100) (97/50) 0 (-1/10))
        ((input0 1 0).transformPose (automaticAt (3/100) (97/50) 0 (-1/10)).m_goal) = 3/10 ∧
     s_y (automaticAt (3/100) (97/50) 0 (-1/10))
        ((input0 1 0).transformPose (automaticAt (3/100) (97/50) 0 (-1/10)).m_goal) = 3/10 ∧
     ∃ msg : Twist, (iteration (automaticAt (3/100) (97/50) 0 (-1/10)) (input0 1 0)).2 = [msg] ∧
       msg.linear.x = -10 ∧ msg.linear.y = -10) ∧
    (s_x (automaticAt (-3/100) (47/25) 0 (-1/10))
        ((input0 1 0).transformPose (automaticAt (-3/100) (47/25) 0 (-1/10)).m_goal) = -(3/10) ∧
     s_y (automaticAt (-3/100) (47/25) 0 (-1/10))
        ((input0 1 0).transformPose (automaticAt (-3/100) (47/25) 0 (-1/10)).m_goal) = -(3/10) ∧
     ∃ msg : Twist, (iteration (automaticAt (-3/100) (47/25) 0 (-1/10)) (input0 1 0)).2 = [msg] ∧
       msg.linear.x = 10 ∧ msg.linear.y = 10) := by
  have a1 : s_x (automaticAt (3/100) (97/50) 0 (-1/10))
      ((input0 1 0).transformPose (automaticAt (3/100) (97/50) 0 (-1/10)).m_goal) = 3/10 := by
    norm_num [s_x, automaticAt, input0, pose0, Twist.zero]
  have a2 : s_y (automaticAt (3/100) (97/50) 0 (-1/10))
      ((input0 1 0).transformPose (automaticAt (3/100) (97/50) 0 (-1/10)).m_goal) = 3/10 := by
    norm_num [s_y, automaticAt, input0, pose0, Twist.zero, abs_of_neg]
  have b1 : s_x (automaticAt (-3/100) (47/25) 0 (-1/10))
      ((input0 1 0).transformPose (automaticAt (-3/100) (47/25) 0 (-1/10)).m_goal) = -(3/10) := by
    norm_num [s_x, automaticAt, input0, pose0, Twist.zero]
  have b2 : s_y (automaticAt (-3/100) (47/25) 0 (-1/10))
      ((input0 1 0).transformPose (automaticAt (-3/100) (47/25) 0 (-1/10)).m_goal) = -(3/10) := by
    norm_num [s_y, automaticAt, input0, pose0, Twist.zero, abs_of_neg]
  refine ⟨⟨a1, a2, ?_⟩, ⟨b1, b2, ?_⟩⟩
  · obtain ⟨msg, hm, h, -⟩ :=
      c6_quadrant_mapping (automaticAt (3/100) (97/50) 0 (-1/10)) (input0 1 0) rfl
        (Or.inr (by norm_num [automaticAt, input0, pose0]))
        (by rw [a1]; norm_num [abs_of_pos]) (by rw [a2]; norm_num [abs_of_pos])
    exact ⟨msg, hm, h (by rw [a1]; norm_num) (by rw [a2]; norm_num)⟩
  · obtain ⟨msg, hm, -, -, h, -⟩ :=
      c6_quadrant_mapping (automaticAt (-3/100) (47/25) 0 (-1/10)) (input0 1 0) rfl
        (Or.inr (by norm_num [automaticAt, input0, pose0]))
        (by rw [b1]; norm_num [abs_of_pos]) (by rw [b2]; norm_num [abs_of_pos])
    exact ⟨msg, hm, h (by rw [b1]; norm_num) (by rw [b2]; norm_num)⟩

/-- C7 (evaluation at the failing input): in the sector branch of `Automatic`
with signals s_x = 0.3 and s_y = 0.1, so that max(|s_x|, |s_y|) exceeds 0.2,
the outer test of line 344 holds but no sector matches and the emitted lateral
velocity is (0, 0), not a diagonal of magnitude 10. -/
theorem c7_one_sided_signal_gives_zero :
    s_x (automaticAt (3/100) (48/25) 0 (-1/10))
        ((input0 1 0).transformPose (automaticAt (3/100) (48/25) 0 (-1/10)).m_goal) = 3/10 ∧
    s_y (automaticAt (3/100) (48/25) 0 (-1/10))
        ((input0 1 0).transformPose (automaticAt (3/100) (48/25) 0 (-1/10)).m_goal) = 1/10 ∧
    errorPresent ((input0 1 0).transformPose (automaticAt (3/100) (48/25) 0 (-1/10)).m_goal) ∧
    max |(3/10 : ℚ)| |(1/10 : ℚ)| > 1/5 ∧
    lateral (3/10) (1/10) = (0, 0) ∧
    (iteration (automaticAt (3/100) (48/25) 0 (-1/10)) (input0 1 0)).2 =
      [{ linear := { x := 0, y := 0, z := 0 }, angular := { x := 0, y := 0, z := 0 } }] := by
  have a1 : s_x (automaticAt (3/100) (48/25) 0 (-1/10))
      ((input0 1 0).transformPose (automaticAt (3/100) (48/25) 0 (-1/10)).m_goal) = 3/10 := by
    norm_num [s_x, automaticAt, input0, pose0, Twist.zero]
  have a2 : s_y (automaticAt (3/100) (48/25) 0 (-1/10))
      ((input0 1 0).transformPose (automaticAt (3/100) (48/25) 0 (-1/10)).m_goal) = 1/10 := by
    norm_num [s_y, automaticAt, input0, pose0, Twist.zero, abs_of_neg]
  have he : errorPresent
      ((input0 1 0).transformPose (automaticAt (3/100) (48/25) 0 (-1/10)).m_goal) :=
    Or.inr (by norm_num [automaticAt, input0, pose0])
  have hl : lateral (3/10) (1/10) = (0, 0) := by
    norm_num [lateral, abs_of_pos]
  refine ⟨a1, a2, he, ?_, hl, ?_⟩
  · norm_num [abs_of_pos]
  · rw [iteration_automatic_sector _ _ rfl he, a1, a2, hl]
    norm_num [automaticAt, controller0, input0, pose0, pid0, PID.update, clamp]

theorem lateral_eq_zero_iff (sx sy : ℚ) :
    lateral sx sy = (0, 0) ↔ ¬ (|sx| > 1/5 ∧ |sy| > 1/5) := by
  constructor
  · rintro h ⟨hx, hy⟩
    obtain ⟨h1, h2, h3, h4⟩ := lateral_of_both sx sy hx hy
    have hx0 : sx ≠ 0 := fun h0 => by rw [h0] at hx; norm_num at hx
    have hy0 : sy ≠ 0 := fun h0 => by rw [h0] at hy; norm_num at hy
    rcases lt_or_gt_of_ne hx0 with a | a <;> rcases lt_or_gt_of_ne hy0 with b | b
    · rw [h3 a b] at h; norm_num at h
    · rw [h2 a b] at h; norm_num at h
    · rw [h4 a b] at h; norm_num at h
    · rw [h1 a b] at h; norm_num at h
  · intro h
    unfold lateral
    split_ifs with _ c1 c2 c3 c4
    · exact absurd ⟨by rw [abs_of_pos (by linarith [c1.1])]; exact c1.1,
        by rw [abs_of_pos (by linarith [c1.2])]; exact c1.2⟩ h
    · exact absurd ⟨by rw [abs_of_neg (by linarith [c2.1])]; linarith [c2.1],
        by rw [abs_of_pos (by linarith [c2.2])]; exact c2.2⟩ h
    · exact absurd ⟨by rw [abs_of_neg (by linarith [c3.1])]; linarith [c3.1],
        by rw [abs_of_neg (by linarith [c3.2])]; linarith [c3.2]⟩ h
    · exact absurd ⟨by rw [abs_of_pos (by linarith [c4.1])]; exact c4.1,
        by rw [abs_of_neg (by linarith [c4.2])]; linarith [c4.2]⟩ h
    · rfl
    · rfl

/-! ## C8: when the PID loops are reset -/

/-- C8 (as stated, refuted): a controller flying in `Automatic` with X
integral 5 receives the takeoff trigger at altitude 1 and then ticks at
altitude 1. The tick stays in `TakingOff` and the X loop still has integral 5
and previous error 2: it was not reset. -/
theorem c8_no_reset_on_entry :
    (iteration (takeoff woundUp { x := 0, y := 0, z := 1 }).1 (input0 1 1)).1.m_state
      = State.TakingOff ∧
    (iteration (takeoff woundUp { x := 0, y := 0, z := 1 }).1 (input0 1 1)).1.m_pidX.integral
      = 5 ∧
    (iteration (takeoff woundUp { x := 0, y := 0, z := 1 }).1 (input0 1 1)).1.m_pidX.previousError
      = 2 := by
  refine ⟨?_, ?_, ?_⟩ <;>
    norm_num [iteration, takeoff, woundUp, controller0, input0, takeoffExit, pid0]

/-- C8 (amended): the PID loops are reset when `TakingOff` is left, not when it
is entered. For every controller state, the takeoff trigger leaves the four
loops unchanged; a following tick that stays in `TakingOff` leaves them
unchanged as well; and on a following tick that leaves `TakingOff` the X, Y and
Yaw loops are in their reset state (integral 0, previous error 0) while the Z
loop has previous error 0 and, when ki_z is nonzero, integral thrust / ki_z.
The exit test compares the sensed altitude with the start altitude the trigger
stored. -/
theorem c8_reset_on_exit (c : Controller) (origin : Vector3) (i : TickInput) :
    ((takeoff c origin).1.m_pidX = c.m_pidX ∧ (takeoff c origin).1.m_pidY = c.m_pidY ∧
     (takeoff c origin).1.m_pidZ = c.m_pidZ ∧ (takeoff c origin).1.m_pidYaw = c.m_pidYaw) ∧
    (¬ (i.origin.z > (takeoff c origin).1.m_startZ + 1/20 ∨ c.m_thrust > 50000) →
      (iteration (takeoff c origin).1 i).1.m_state = State.TakingOff ∧
      (iteration (takeoff c origin).1 i).1.m_pidX = c.m_pidX ∧
      (iteration (takeoff c origin).1 i).1.m_pidY = c.m_pidY ∧
      (iteration (takeoff c origin).1 i).1.m_pidZ = c.m_pidZ ∧
      (iteration (takeoff c origin).1 i).1.m_pidYaw = c.m_pidYaw) ∧
    ((i.origin.z > (takeoff c origin).1.m_startZ + 1/20 ∨ c.m_thrust > 50000) →
      (iteration (takeoff c origin).1 i).1.m_state = State.GoToZDesired ∧
      (iteration (takeoff c origin).1 i).1.m_pidX = c.m_pidX.reset ∧
      (iteration (takeoff c origin).1 i).1.m_pidY = c.m_pidY.reset ∧
      (iteration (takeoff c origin).1 i).1.m_pidYaw = c.m_pidYaw.reset ∧
      (iteration (takeoff c origin).1 i).1.m_pidZ.previousError = 0 ∧
      (c.m_pidZ.ki ≠ 0 →
        (iteration (takeoff c origin).1 i).1.m_pidZ.integral = c.m_thrust / c.m_pidZ.ki)) := by
  refine ⟨⟨rfl, rfl, rfl, rfl⟩, fun hx => ?_, fun hx => ?_⟩
  · have hx2 : ¬ takeoffExit (takeoff c origin).1 i := hx
    rw [iteration_takingOff_stay _ _ rfl hx2]
    exact ⟨rfl, rfl, rfl, rfl, rfl⟩
  · have hx2 : takeoffExit (takeoff c origin).1 i := hx
    rw [iteration_takingOff_exit _ _ rfl hx2]
    exact ⟨rfl, rfl, rfl, rfl, rfl, fun _ => rfl⟩

/-- C8 (amended), at a concrete input: the wound-up controller with thrust
60000 and ki_z = 1 receives the trigger at altitude 1 and ticks at altitude 1;
the tick leaves `TakingOff`, the X loop is back to integral 0 and previous
error 0, and the Z loop holds the integral 60000. -/
theorem c8_reset_on_exit_witness :
    (iteration (takeoff { woundUp with m_thrust := 60000 } { x := 0, y := 0, z := 1 }).1
        (input0 1 1)).1.m_state = State.GoToZDesired ∧
    (iteration (takeoff { woundUp with m_thrust := 60000 } { x := 0, y := 0, z := 1 }).1
        (input0 1 1)).1.m_pidX.integral = 0 ∧
    (iteration (takeoff { woundUp with m_thrust := 60000 } { x := 0, y := 0, z := 1 }).1
        (input0 1 1)).1.m_pidX.previousError = 0 ∧
    (iteration (takeoff { woundUp with m_thrust := 60000 } { x := 0, y := 0, z := 1 }).1
        (input0 1 1)).1.m_pidZ.integral = 60000 := by
  obtain ⟨h1, h2, -, -, -, h6⟩ :=
    (c8_reset_on_exit { woundUp with m_thrust := 60000 } { x := 0, y := 0, z := 1 }
      (input0 1 1)).2.2 (Or.inr (by norm_num [woundUp, controller0]))
  refine ⟨h1, ?_, ?_, ?_⟩
  · rw [h2]
    rfl
  · rw [h2]
    rfl
  · rw [h6 (by norm_num [woundUp, controller0, pid0])]
    norm_num [woundUp, controller0, pid0]

/-! ## C9: the mode graph of the tick -/

/-- C9: for every state and tick input, the pair (mode before, mode after) is
a self-loop or one of `TakingOff` to `GoToZDesired`, `GoToZDesired` to
`Automatic`, `Landing` to `Idle`; a tick never leaves `Idle` or `Automatic`. -/
theorem c9_mode_graph (c : Controller) (i : TickInput) :
    ((iteration c i).1.m_state = c.m_state ∨
     (c.m_state = State.TakingOff ∧ (iteration c i).1.m_state = State.GoToZDesired) ∨
     (c.m_state = State.GoToZDesired ∧ (iteration c i).1.m_state = State.Automatic) ∨
     (c.m_state = State.Landing ∧ (iteration c i).1.m_state = State.Idle)) ∧
    (c.m_state = State.Idle → (iteration c i).1.m_state = State.Idle) ∧
    (c.m_state = State.Automatic → (iteration c i).1.m_state = State.Automatic) := by
  cases hs : c.m_state
  · simp [iteration, hs]
  · by_cases he : errorPresent (i.transformPose c.m_goal) <;>
      simp [iteration, hs, he, pidCommand]
  · by_cases hx : takeoffExit c i <;> simp [iteration, hs, hx]
  · by_cases hx : i.origin.z ≤ c.m_startZ + 20⁻¹ <;>
      simp [iteration, hs, landingExit, hx, pidCommand]
  · by_cases hx : (i.transformPose c.m_goal_temp).position.x *
        (i.transformPose c.m_goal_temp).position.x < 20⁻¹ ∧
        (i.transformPose c.m_goal_temp).position.y *
        (i.transformPose c.m_goal_temp).position.y < 20⁻¹ ∧
        (i.transformPose c.m_goal_temp).position.z *
        (i.transformPose c.m_goal_temp).position.z < 20⁻¹ <;>
      simp [iteration, hs, hx, pidCommand]

/-! ## C10: leaving `GoToZDesired` -/

/-- C10: for every tick that starts in `GoToZDesired` with the snapshot goal
resolved to body-frame position (ex, ey, ez), the mode after the tick is
`Automatic` if and only if ex*ex, ey*ey and ez*ez are all below 0.05;
otherwise the mode stays `GoToZDesired`. -/
theorem c10_ascent_exit (c : Controller) (i : TickInput)
    (hs : c.m_state = State.GoToZDesired) :
    ((iteration c i).1.m_state = State.Automatic ↔
      ((i.transformPose c.m_goal_temp).position.x *
          (i.transformPose c.m_goal_temp).position.x < 1/20 ∧
       (i.transformPose c.m_goal_temp).position.y *
          (i.transformPose c.m_goal_temp).position.y < 1/20 ∧
       (i.transformPose c.m_goal_temp).position.z *
          (i.transformPose c.m_goal_temp).position.z < 1/20)) ∧
    (¬ ((i.transformPose c.m_goal_temp).position.x *
          (i.transformPose c.m_goal_temp).position.x < 1/20 ∧
       (i.transformPose c.m_goal_temp).position.y *
          (i.transformPose c.m_goal_temp).position.y < 1/20 ∧
       (i.transformPose c.m_goal_temp).position.z *
          (i.transformPose c.m_goal_temp).position.z < 1/20) →
      (iteration c i).1.m_state = State.GoToZDesired) := by
  by_cases hx : (i.transformPose c.m_goal_temp).position.x *
        (i.transformPose c.m_goal_temp).position.x < 1/20 ∧
        (i.transformPose c.m_goal_temp).position.y *
        (i.transformPose c.m_goal_temp).position.y < 1/20 ∧
        (i.transformPose c.m_goal_temp).position.z *
        (i.transformPose c.m_goal_temp).position.z < 1/20
  · have h : (iteration c i).1.m_state = State.Automatic := by
      simp only [iteration, hs]
      rw [if_pos hx]
    exact ⟨⟨fun _ => hx, fun _ => h⟩, fun hn => absurd hx hn⟩
  · have h : (iteration c i).1.m_state = State.GoToZDesired := by
      simp only [iteration, hs]
      rw [if_neg hx]
      exact hs
    refine ⟨⟨fun h2 => ?_, fun h2 => absurd h2 hx⟩, fun _ => h⟩
    rw [h] at h2
    cases h2

/-- C10 at concrete inputs: body-frame errors (0.2, 0.1, 0.2) have squares
below 0.05 and the tick enters `Automatic`; errors (0.2, 0.1, 0.3) do not
(0.09 is not below 0.05) and the tick stays in `GoToZDesired`. -/
theorem c10_ascent_exit_witness :
    (iteration (ascendingTo (1/5) (1/10) (1/5)) (input0 1 1)).1.m_state = State.Automatic ∧
    (iteration (ascendingTo (1/5) (1/10) (3/10)) (input0 1 1)).1.m_state
      = State.GoToZDesired := by
  constructor
  · exact (c10_ascent_exit (ascendingTo (1/5) (1/10) (1/5)) (input0 1 1) rfl).1.2
      (by norm_num [ascendingTo, input0, pose0])
  · exact (c10_ascent_exit (ascendingTo (1/5) (1/10) (3/10)) (input0 1 1) rfl).2
      (by norm_num [ascendingTo, input0, pose0])

/-! ## C11: the landing trigger -/

/-- C11: the landing trigger `land`, in whatever mode it is invoked, reports
success and sets the mode to `Landing`; the goal, the snapshot goal, the start
x/y/z, the accumulated thrust, the four PID states and every other field are
left as they were. -/
theorem c11_land_frame (c : Controller) :
    (land c).2 = true ∧
    (land c).1.m_state = State.Landing ∧
    (land c).1.m_goal = c.m_goal ∧
    (land c).1.m_goal_temp = c.m_goal_temp ∧
    (land c).1.m_startX = c.m_startX ∧
    (land c).1.m_startY = c.m_startY ∧
    (land c).1.m_startZ = c.m_startZ ∧
    (land c).1.m_thrust = c.m_thrust ∧
    (land c).1.m_pidX = c.m_pidX ∧
    (land c).1.m_pidY = c.m_pidY ∧
    (land c).1.m_pidZ = c.m_pidZ ∧
    (land c).1.m_pidYaw = c.m_pidYaw ∧
    (land c).1.m_twistData = c.m_twistData ∧
    (land c).1.m_HoverRMSEX = c.m_HoverRMSEX ∧
    (land c).1.m_HoverRMSEY = c.m_HoverRMSEY ∧
    (land c).1.m_HoverRMSEZ = c.m_HoverRMSEZ :=
  ⟨rfl, rfl, rfl, rfl, rfl, rfl, rfl, rfl, rfl, rfl, rfl, rfl, rfl, rfl, rfl, rfl⟩

/-! ## C12 and C17: the thrust ramp -/

/-- C12: for every tick that starts in `TakingOff` with altitude at most
start_z + 0.05 and accumulated thrust at most 50000, the accumulated thrust
after the tick is thrust_before + 14500*dt, the tick emits one command whose
vertical linear velocity is that new thrust and whose other components are
zero, and the mode remains `TakingOff`. -/
theorem c12_thrust_ramp (c : Controller) (i : TickInput)
    (hs : c.m_state = State.TakingOff)
    (hz : i.origin.z ≤ c.m_startZ + 1/20) (ht : c.m_thrust ≤ 50000) :
    (iteration c i).1.m_thrust = c.m_thrust + 14500 * i.dt ∧
    (iteration c i).2 =
      [{ linear := { x := 0, y := 0, z := (iteration c i).1.m_thrust },
         angular := { x := 0, y := 0, z := 0 } }] ∧
    (iteration c i).1.m_state = State.TakingOff := by
  have hx : ¬ takeoffExit c i := by
    unfold takeoffExit
    push_neg
    exact ⟨hz, ht⟩
  rw [iteration_takingOff_stay c i hs hx]
  exact ⟨rfl, rfl, hs⟩

/-- C12 at a concrete input: thrust 1000, dt 1/50, vehicle at its start
altitude; the thrust becomes 1290 and is emitted as vertical velocity. -/
theorem c12_thrust_ramp_witness :
    (iteration (takingOffWith 1000) (input0 (1/50) 0)).1.m_thrust = 1290 ∧
    (iteration (takingOffWith 1000) (input0 (1/50) 0)).2 =
      [{ linear := { x := 0, y := 0, z := 1290 },
         angular := { x := 0, y := 0, z := 0 } }] ∧
    (iteration (takingOffWith 1000) (input0 (1/50) 0)).1.m_state = State.TakingOff := by
  obtain ⟨h1, h2, h3⟩ :=
    c12_thrust_ramp (takingOffWith 1000) (input0 (1/50) 0) rfl
      (by norm_num [takingOffWith, controller0, input0])
      (by norm_num [takingOffWith, controller0])
  have h4 : (iteration (takingOffWith 1000) (input0 (1/50) 0)).1.m_thrust = 1290 := by
    rw [h1]
    norm_num [takingOffWith, controller0, input0]
  refine ⟨h4, ?_, h3⟩
  rw [h2, h4]

/-- C17: for every tick with dt >= 0 that starts in `TakingOff`, every command
the tick emits has a vertical velocity equal to the new accumulated thrust and
at most 50000 + 14500*dt; a command is emitted only when the thrust before the
tick is at most 50000. -/
theorem c17_takeoff_thrust_bounded (c : Controller) (i : TickInput)
    (hs : c.m_state = State.TakingOff) (_hdt : 0 ≤ i.dt)
    (msg : Twist) (hm : msg ∈ (iteration c i).2) :
    msg.linear.z = (iteration c i).1.m_thrust ∧
    msg.linear.z ≤ 50000 + 14500 * i.dt ∧
    c.m_thrust ≤ 50000 := by
  by_cases hx : takeoffExit c i
  · rw [iteration_takingOff_exit c i hs hx] at hm
    simp at hm
  · have ht : c.m_thrust ≤ 50000 := by
      unfold takeoffExit at hx
      push_neg at hx
      exact hx.2
    rw [iteration_takingOff_stay c i hs hx] at hm ⊢
    simp only [List.mem_singleton] at hm
    subst hm
    refine ⟨rfl, ?_, ht⟩
    show c.m_thrust + 14500 * i.dt ≤ 50000 + 14500 * i.dt
    linarith

/-- C17 at a concrete input: thrust 50000 and dt 1 emit the vertical velocity
64500, which is the bound 50000 + 14500. -/
theorem c17_takeoff_thrust_bounded_witness :
    ({ linear := { x := 0, y := 0, z := 64500 }, angular := { x := 0, y := 0, z := 0 } } : Twist)
      ∈ (iteration (takingOffWith 50000) (input0 1 0)).2 ∧
    (64500 : ℚ) ≤ 50000 + 14500 * (input0 1 0).dt := by
  have hm : ({ linear := { x := 0, y := 0, z := 64500 },
               angular := { x := 0, y := 0, z := 0 } } : Twist)
      ∈ (iteration (takingOffWith 50000) (input0 1 0)).2 := by
    norm_num [iteration, takingOffWith, controller0, input0, takeoffExit, Twist.zero]
  exact ⟨hm, (c17_takeoff_thrust_bounded (takingOffWith 50000) (input0 1 0) rfl
    (by norm_num [input0]) _ hm).2.1⟩

/-! ## C13 and C14: what the exit of `TakingOff` and a `Landing` tick write -/

theorem takeoff_captures_start (c : Controller) (origin : Vector3) :
    (takeoff c origin).1.m_startX = origin.x ∧
    (takeoff c origin).1.m_startY = origin.y ∧
    (takeoff c origin).1.m_startZ = origin.z :=
  ⟨rfl, rfl, rfl⟩

theorem iteration_start_unchanged (c : Controller) (i : TickInput) :
    (iteration c i).1.m_startX = c.m_startX ∧
    (iteration c i).1.m_startY = c.m_startY ∧
    (iteration c i).1.m_startZ = c.m_startZ := by
  cases hs : c.m_state
  · simp [iteration, hs]
  · by_cases he : errorPresent (i.transformPose c.m_goal) <;>
      simp [iteration, hs, he, pidCommand]
  · by_cases hx : takeoffExit c i <;> simp [iteration, hs, hx, pidReset]
  · by_cases hx : i.origin.z ≤ c.m_startZ + 20⁻¹ <;>
      simp [iteration, hs, landingExit, hx, pidCommand]
  · by_cases hx : (i.transformPose c.m_goal_temp).position.x *
        (i.transformPose c.m_goal_temp).position.x < 20⁻¹ ∧
        (i.transformPose c.m_goal_temp).position.y *
        (i.transformPose c.m_goal_temp).position.y < 20⁻¹ ∧
        (i.transformPose c.m_goal_temp).position.z *
        (i.transformPose c.m_goal_temp).position.z < 20⁻¹ <;>
      simp [iteration, hs, hx, pidCommand]

/-- C13: on the tick on which `TakingOff` exits, the snapshot goal becomes the
live goal with its x and y position replaced by the start x and y (the fields
the takeoff trigger wrote); its z position and orientation are those of the
live goal, the live goal is unchanged and the accumulated thrust is 0. -/
theorem c13_snapshot_goal (c : Controller) (i : TickInput)
    (hs : c.m_state = State.TakingOff)
    (hx : i.origin.z > c.m_startZ + 1/20 ∨ c.m_thrust > 50000) :
    (iteration c i).1.m_goal_temp.position.x = c.m_startX ∧
    (iteration c i).1.m_goal_temp.position.y = c.m_startY ∧
    (iteration c i).1.m_goal_temp.position.z = c.m_goal.position.z ∧
    (iteration c i).1.m_goal_temp.orientation = c.m_goal.orientation ∧
    (iteration c i).1.m_goal = c.m_goal ∧
    (iteration c i).1.m_thrust = 0 := by
  rw [iteration_takingOff_exit c i hs hx]
  exact ⟨rfl, rfl, rfl, rfl, rfl, rfl⟩

/-- C13 at a concrete input: the trigger arrived at (3, 4, 0), the live goal is
(1, 2, 5) and the thrust is 60000; the exit tick leaves the snapshot goal at
(3, 4, 5), the live goal at (1, 2, 5) and the thrust at 0. -/
theorem c13_snapshot_goal_witness :
    (iteration readyToAscend (input0 1 0)).1.m_goal_temp.position = { x := 3, y := 4, z := 5 } ∧
    (iteration readyToAscend (input0 1 0)).1.m_goal.position = { x := 1, y := 2, z := 5 } ∧
    (iteration readyToAscend (input0 1 0)).1.m_thrust = 0 := by
  obtain ⟨h1, h2, h3, -, h5, h6⟩ :=
    c13_snapshot_goal readyToAscend (input0 1 0) rfl
      (Or.inr (by norm_num [readyToAscend, takeoff, controller0]))
  refine ⟨?_, ?_, h6⟩
  · have e : (iteration readyToAscend (input0 1 0)).1.m_goal_temp.position =
        { x := (iteration readyToAscend (input0 1 0)).1.m_goal_temp.position.x,
          y := (iteration readyToAscend (input0 1 0)).1.m_goal_temp.position.y,
          z := (iteration readyToAscend (input0 1 0)).1.m_goal_temp.position.z } := rfl
    rw [e, h1, h2, h3]
    rfl
  · rw [h5]
    rfl

/-- C14: for every tick that starts in `Landing`, the goal after the tick has
z position start_z + 0.05 while its x position, y position and orientation are
those of the goal before the tick, and the start x/y/z are unchanged. -/
theorem c14_landing_goal (c : Controller) (i : TickInput)
    (hs : c.m_state = State.Landing) :
    (iteration c i).1.m_goal.position.z = c.m_startZ + 1/20 ∧
    (iteration c i).1.m_goal.position.x = c.m_goal.position.x ∧
    (iteration c i).1.m_goal.position.y = c.m_goal.position.y ∧
    (iteration c i).1.m_goal.orientation = c.m_goal.orientation ∧
    (iteration c i).1.m_startX = c.m_startX ∧
    (iteration c i).1.m_startY = c.m_startY ∧
    (iteration c i).1.m_startZ = c.m_startZ := by
  by_cases hx : i.origin.z ≤ c.m_startZ + 20⁻¹ <;>
    simp [iteration, hs, landingExit, hx, pidCommand]

/-- C14 at a concrete input: landing with the goal one metre ahead of the start
position (0, 0, 0); after the tick the goal is at x = 1 (not the start x = 0)
and z = 0.05. -/
theorem c14_landing_goal_witness :
    (iteration landingAhead (input0 1 1)).1.m_goal.position.z = 1/20 ∧
    (iteration landingAhead (input0 1 1)).1.m_goal.position.x = 1 ∧
    landingAhead.m_startX = 0 := by
  obtain ⟨h1, h2, -⟩ := c14_landing_goal landingAhead (input0 1 1) rfl
  refine ⟨?_, ?_, rfl⟩
  · rw [h1]
    norm_num [landingAhead, controller0]
  · rw [h2]
    rfl

/-! ## C15: Z and yaw in `Automatic` -/

/-- C15: for every tick in `Automatic`, whichever lateral branch is taken, the
tick emits one command whose vertical velocity is the output of the Z loop for
the body-frame z error and whose yaw rate is the output of the Yaw loop for the
body-frame yaw error, and after the tick each of the Z and Yaw loops is the
result of exactly one update of the loop before the tick. -/
theorem c15_z_yaw_closed_loop (c : Controller) (i : TickInput)
    (hs : c.m_state = State.Automatic) :
    ∃ msg : Twist, (iteration c i).2 = [msg] ∧
      msg.linear.z = (c.m_pidZ.update i.dt 0 (i.transformPose c.m_goal).position.z).2 ∧
      msg.angular.z =
        (c.m_pidYaw.update i.dt 0 (i.yawOf (i.transformPose c.m_goal).orientation)).2 ∧
      (iteration c i).1.m_pidZ =
        (c.m_pidZ.update i.dt 0 (i.transformPose c.m_goal).position.z).1 ∧
      (iteration c i).1.m_pidYaw =
        (c.m_pidYaw.update i.dt 0 (i.yawOf (i.transformPose c.m_goal).orientation)).1 := by
  by_cases he : errorPresent (i.transformPose c.m_goal)
  · refine ⟨_, iteration_automatic_sector c i hs he, rfl, rfl, ?_, ?_⟩ <;>
      simp [iteration, hs, he]
  · rw [iteration_automatic_pid c i hs he]
    exact ⟨_, rfl, rfl, rfl, rfl, rfl⟩

/-- C15 at a concrete input: goal one metre ahead and two metres up, so the
sector branch is taken; the Z loop (kp = ki = 1, dt = 1) outputs -4 and holds
the integral -2 afterwards. -/
theorem c15_z_yaw_closed_loop_witness :
    errorPresent ((input0 1 0).transformPose belowGoal.m_goal) ∧
    ∃ msg : Twist, (iteration belowGoal (input0 1 0)).2 = [msg] ∧
      msg.linear.z = -4 ∧ msg.angular.z = 0 ∧
      (iteration belowGoal (input0 1 0)).1.m_pidZ.integral = -2 := by
  obtain ⟨msg, hm, hz, hyaw, hpz, -⟩ := c15_z_yaw_closed_loop belowGoal (input0 1 0) rfl
  refine ⟨Or.inl (by norm_num [belowGoal, input0, pose0]), msg, hm, ?_, ?_, ?_⟩
  · rw [hz]
    norm_num [belowGoal, controller0, input0, pose0, pid0, PID.update, clamp]
  · rw [hyaw]
    norm_num [belowGoal, controller0, input0, pose0, pid0, PID.update, clamp]
  · rw [hpz]
    norm_num [belowGoal, controller0, input0, pose0, pid0, PID.update, clamp]

/-! ## C16: accumulated thrust in reachable states -/

theorem runEvents_append (c : Controller) (es : List Event) (e : Event) :
    runEvents c (es ++ [e]) = step (runEvents c es) e := by
  simp [runEvents, List.foldl_append]

theorem iteration_thrust_zero_in_flight (c : Controller) (i : TickInput)
    (h : c.m_state = State.GoToZDesired ∨ c.m_state = State.Automatic → c.m_thrust = 0) :
    (iteration c i).1.m_state = State.GoToZDesired ∨
      (iteration c i).1.m_state = State.Automatic → (iteration c i).1.m_thrust = 0 := by
  cases hs : c.m_state
  · simp [iteration, hs]
  · have h0 : c.m_thrust = 0 := h (Or.inr hs)
    by_cases he : errorPresent (i.transformPose c.m_goal) <;>
      simp [iteration, hs, he, pidCommand, h0]
  · by_cases hx : takeoffExit c i <;> simp [iteration, hs, hx]
  · by_cases hx : i.origin.z ≤ c.m_startZ + 20⁻¹ <;>
      simp [iteration, hs, landingExit, hx, pidCommand]
  · have h0 : c.m_thrust = 0 := h (Or.inl hs)
    by_cases hx : (i.transformPose c.m_goal_temp).position.x *
        (i.transformPose c.m_goal_temp).position.x < 20⁻¹ ∧
        (i.transformPose c.m_goal_temp).position.y *
        (i.transformPose c.m_goal_temp).position.y < 20⁻¹ ∧
        (i.transformPose c.m_goal_temp).position.z *
        (i.transformPose c.m_goal_temp).position.z < 20⁻¹ <;>
      simp [iteration, hs, hx, pidCommand, h0]

/-- What does hold of the reachable states: in `GoToZDesired` and `Automatic`
the accumulated thrust is 0, after any sequence of ticks and triggers. -/
theorem reachable_thrust_zero_in_flight (es : List Event) :
    (runEvents controller0 es).m_state = State.GoToZDesired ∨
      (runEvents controller0 es).m_state = State.Automatic →
    (runEvents controller0 es).m_thrust = 0 := by
  induction es using List.reverseRecOn with
  | nil => intro _; rfl
  | append_singleton es e ih =>
    rw [runEvents_append]
    cases e with
    | tick i => exact iteration_thrust_zero_in_flight _ i ih
    | takeoff origin => intro h; simp [step, takeoff] at h
    | land => intro h; simp [step, land] at h

/-- C16 (evaluation at the failing input): from the initial state, a takeoff
trigger, one tick of one second on the ground, a landing trigger and one more
tick on the ground, all with dt >= 0, reach `Idle` with accumulated thrust
14500; the first tick of the next takeoff then emits the vertical velocity
29000 instead of 14500. -/
theorem c16_idle_with_leftover_thrust :
    nonnegTicks abortedTakeoff ∧
    (runEvents controller0 abortedTakeoff).m_state = State.Idle ∧
    (runEvents controller0 abortedTakeoff).m_thrust = 14500 ∧
    (iteration (takeoff (runEvents controller0 abortedTakeoff) { x := 0, y := 0, z := 0 }).1
        (input0 1 0)).2 =
      [{ linear := { x := 0, y := 0, z := 29000 }, angular := { x := 0, y := 0, z := 0 } }] := by
  have h1 : runEvents controller0 [Event.takeoff { x := 0, y := 0, z := 0 },
      Event.tick (input0 1 0)] =
      { controller0 with m_state := State.TakingOff, m_thrust := 14500 } := by
    have hx : ¬ takeoffExit (takeoff controller0 { x := 0, y := 0, z := 0 }).1 (input0 1 0) := by
      norm_num [takeoffExit, takeoff, controller0, input0]
    show (iteration (takeoff controller0 { x := 0, y := 0, z := 0 }).1 (input0 1 0)).1 = _
    rw [iteration_takingOff_stay _ _ rfl hx]
    norm_num [takeoff, controller0, input0]
  have h2 : (runEvents controller0 abortedTakeoff).m_state = State.Idle ∧
      (runEvents controller0 abortedTakeoff).m_thrust = 14500 := by
    have e : runEvents controller0 abortedTakeoff =
        (iteration (land (runEvents controller0 [Event.takeoff { x := 0, y := 0, z := 0 },
          Event.tick (input0 1 0)])).1 (input0 1 0)).1 := rfl
    rw [e, h1]
    constructor <;>
      norm_num [iteration, land, landingExit, pidCommand, controller0, input0]
  refine ⟨?_, h2.1, h2.2, ?_⟩
  · norm_num [abortedTakeoff, nonnegTicks, input0]
  · have hx : ¬ takeoffExit
        (takeoff (runEvents controller0 abortedTakeoff) { x := 0, y := 0, z := 0 }).1
        (input0 1 0) := by
      unfold takeoffExit
      show ¬ ((input0 1 0).origin.z > (0 : ℚ) + 1/20 ∨
        (runEvents controller0 abortedTakeoff).m_thrust > 50000)
      rw [h2.2]
      norm_num [input0]
    have ht : (takeoff (runEvents controller0 abortedTakeoff)
        { x := 0, y := 0, z := 0 }).1.m_thrust = 14500 := h2.2
    rw [iteration_takingOff_stay _ _ rfl hx, ht]
    norm_num [input0]

end TimeOptimalController
